import Mathlib

/-!
Verification of the phishing-URL feature extractor.

A shallow embedding of the URL feature-extraction layer of the
Phishing_classifier repository (`src/utils/url_extractor.py`,
`api_utils.py`, `main.py`) together with theorems settling the frozen
claims about it.

External effects (HTTP fetch, WHOIS, DNS, TLS handshake, the `tldextract`
public-suffix lookup, and the regex scan of the fetched markup) are
modelled as explicit oracle inputs collected in an `Env` record; the pure
logic of the Python code (URL parsing, validation, bucketing, defaults,
feature assembly) is translated directly.

String primitives are implemented by structural recursion over character
lists so that every definition evaluates inside the kernel.
-/

namespace Phishing

/-- Decidable equality for `Except`, needed to evaluate the embedded
fallible functions on concrete inputs. -/
def exceptDecEq {ε α : Type} [DecidableEq ε] [DecidableEq α] :
    (a b : Except ε α) → Decidable (a = b)
  | .ok a, .ok b =>
    if h : a = b then .isTrue (by rw [h]) else .isFalse (by intro hc; cases hc; exact h rfl)
  | .error e, .error f =>
    if h : e = f then .isTrue (by rw [h]) else .isFalse (by intro hc; cases hc; exact h rfl)
  | .ok _, .error _ => .isFalse (by intro hc; cases hc)
  | .error _, .ok _ => .isFalse (by intro hc; cases hc)

instance {ε α : Type} [DecidableEq ε] [DecidableEq α] : DecidableEq (Except ε α) :=
  exceptDecEq

/-! ## String primitives (Python `str` operations, character-exact) -/

/-- Split a character list at every occurrence of `sep`
(Python `s.split(sep)` for a one-character separator: always at least one
piece, empty pieces kept). -/
def splitOnChar (sep : Char) : List Char → List (List Char)
  | [] => [[]]
  | c :: t =>
    if c = sep then [] :: splitOnChar sep t
    else
      match splitOnChar sep t with
      | h :: r => (c :: h) :: r
      | [] => [[c]]

/-- `splitOnChar` on strings. -/
def strSplit (s : String) (sep : Char) : List String :=
  (splitOnChar sep s.toList).map List.asString

/-- Substring test on lists (Python `needle in hay`). -/
def hasInfixL (hay needle : List Char) : Bool :=
  needle.isPrefixOf hay ||
    match hay with
    | [] => false
    | _ :: t => hasInfixL t needle

/-- Substring test (Python `needle in hay`). -/
def strContains (hay needle : String) : Bool :=
  hasInfixL hay.toList needle.toList

/-- Character membership (Python `c in s`). -/
def strHasChar (s : String) (c : Char) : Bool := s.toList.contains c

/-- Python `s.startswith(p)`. -/
def strStarts (s p : String) : Bool := p.toList.isPrefixOf s.toList

/-- Python `s.endswith(p)`. -/
def strEnds (s p : String) : Bool := p.toList.reverse.isPrefixOf s.toList.reverse

/-- Python `s[:n]` (first `n` characters). -/
def strTake (s : String) (n : Nat) : String := (s.toList.take n).asString

/-- Drop the first `n` characters. -/
def strDrop (s : String) (n : Nat) : String := (s.toList.drop n).asString

/-- ASCII lower-casing of one character; the repository only lower-cases
hosts and markup that are ASCII, where Python `str.lower` agrees. -/
def asciiLower (c : Char) : Char :=
  if 'A' ≤ c ∧ c ≤ 'Z' then Char.ofNat (c.toNat + 32) else c

/-- Python `s.lower()` on ASCII text. -/
def strLower (s : String) : String := (s.toList.map asciiLower).asString

/-- Python string length (`len(s)`, counted in characters). -/
def strLen (s : String) : Nat := s.toList.length

/-! ## Model of `urllib.parse.urlparse` -/

/-- Characters CPython's `urllib.parse` accepts inside a URL scheme. -/
def schemeChar (c : Char) : Bool :=
  c.isAlphanum || c = '+' || c = '-' || c = '.'

/-- Result of `urllib.parse.urlparse`: the components the repository reads. -/
structure ParseResult where
  scheme : String
  netloc : String
  path : String
deriving Repr, DecidableEq

/-- Scheme recognition of CPython `urlsplit`: the text before the first `:`
is the scheme iff that colon is not the first character, the first
character is an ASCII letter and every character before the colon is a
scheme character; the scheme is lowercased. -/
def splitScheme (url : String) : String × String :=
  match url.toList.findIdx? (fun c => c = ':') with
  | none => ("", url)
  | some 0 => ("", url)
  | some n =>
    let pre := strTake url n
    if (url.toList.headD ' ').isAlpha && pre.toList.all schemeChar then
      (strLower pre, strDrop url (n + 1))
    else ("", url)

/-- Netloc extraction of CPython `urlsplit`: after `//` the netloc runs to
the first `/`, `?` or `#`.  A netloc holding `[` without `]` (or vice
versa) raises `ValueError("Invalid IPv6 URL")`, modelled as `Except.error`. -/
def splitNetloc (rest : String) : Except String (String × String) :=
  if strStarts rest "//" then
    let r := strDrop rest 2
    let nl := (r.toList.takeWhile (fun c => c ≠ '/' && c ≠ '?' && c ≠ '#')).asString
    let rem := strDrop r (strLen nl)
    if (strHasChar nl '[' && !strHasChar nl ']') || (strHasChar nl ']' && !strHasChar nl '[') then
      Except.error "Invalid IPv6 URL"
    else
      Except.ok (nl, rem)
  else
    Except.ok ("", rest)

/-- Drop a `#fragment` suffix. -/
def stripFragment (s : String) : String := (strSplit s '#').headD s

/-- Drop a `?query` suffix. -/
def stripQuery (s : String) : String := (strSplit s '?').headD s

/-- Model of `urllib.parse.urlparse`, restricted to the fields the
repository uses (`scheme`, `netloc`, `path`).  It can fail with
`Invalid IPv6 URL` exactly as CPython's `urlsplit` does. -/
def urlparse (url : String) : Except String ParseResult := do
  let (scheme, rest) := splitScheme url
  let (netloc, rest2) ← splitNetloc rest
  Except.ok ⟨scheme, netloc, stripQuery (stripFragment rest2)⟩

/-- `parsed.netloc.split(':')[0]`: the host part of a netloc. -/
def hostOf (netloc : String) : String := (strSplit netloc ':').headD ""

/-! ## `validate_url` -/

/-- `validate_url` from `src/utils/url_extractor.py`, translated check by
check in source order.  Python returns a `(bool, reason)` pair or lets the
`ValueError` raised by `urlparse` propagate; the latter is the
`Except.error` case. -/
def validate_url (url : String) : Except String (Bool × String) :=
  if url = "" || strLen url < 4 then
    Except.ok (false, "URL is too short")
  else do
    let parsed ← urlparse url
    if parsed.scheme = "" then
      Except.ok (false, "Missing protocol (http:// or https://)")
    else if ¬ (parsed.scheme = "http" ∨ parsed.scheme = "https") then
      Except.ok (false, "Invalid protocol: " ++ parsed.scheme)
    else if parsed.netloc = "" then
      Except.ok (false, "Invalid URL format. Missing domain")
    else
      let host := hostOf parsed.netloc
      if host = "" || !strHasChar host '.' then
        Except.ok (false, "Invalid domain. Must have at least one dot")
      else if strStarts host "." || strEnds host "." || strContains host ".." then
        Except.ok (false, "Invalid domain format")
      else if ¬ host.toList.all (fun c => c.isAlphanum || c = '.' || c = '-') then
        Except.ok (false, "Domain contains invalid characters")
      else
        let parts := strSplit host '.'
        if parts.any (fun p => strLen p = 0) then
          Except.ok (false, "Invalid domain structure")
        else
          let tld := parts.getLastD ""
          if ¬ (2 ≤ strLen tld ∧ tld.toList.all Char.isAlpha) then
            Except.ok (false, "Invalid TLD: ." ++ tld)
          else
            Except.ok (true, "Valid URL")

/-! ## Oracles for the external probes -/

/-- Outcome of the WHOIS lookup performed by `get_domain_age`:
the lookup can raise, return no creation date, return a string-typed
creation date, or return a real date whose distance to now is `daysAgo`
(a list-typed date is reduced to its first element before this point). -/
inductive WhoisOutcome : Type
  | lookupError : WhoisOutcome
  | noDate : WhoisOutcome
  | stringDate : WhoisOutcome
  | creationDate (daysAgo : Int) : WhoisOutcome
deriving Repr, DecidableEq

/-- Outcome of the TLS probe performed by `check_ssl`: connection or
handshake failure, a certificate without `notAfter`, a `notAfter` that
fails to parse, or a parsed expiry `daysValid` days away. -/
inductive SslOutcome : Type
  | connError : SslOutcome
  | parseError : SslOutcome
  | certNoExpiry : SslOutcome
  | certExpiry (daysValid : Int) : SslOutcome
deriving Repr, DecidableEq

/-- One `<a href=...>` match in the fetched markup: whether the href
starts with `#`, `javascript:` or `mailto:`, and the registrable domain of
its netloc (`none` when the href has no netloc). -/
structure Anchor where
  suspScheme : Bool
  dom : Option String
deriving Repr, DecidableEq

/-- Results of the regex scan `extract_features_from_url` performs on the
fetched markup, abstracted per match: for each `src`/`href`-bearing match
the registrable domain of its netloc (`none` when the netloc is empty),
the `<form action=...>` values verbatim, and the presence booleans for the
JavaScript-trick patterns. -/
structure HtmlScan where
  favicon : Option String
  links : List (Option String)
  anchors : List Anchor
  tags : List (Option String)
  forms : List String
  hasMailto : Bool
  hasMouseover : Bool
  hasRightClick : Bool
  hasPopup : Bool
  hasIframe : Bool
deriving Repr, DecidableEq

/-- The external world as seen by one extraction: library availability
flags, the HTTP response (`none` = the request raised), the WHOIS, DNS and
TLS outcomes, the `tldextract` fields of the URL's host, and the scan of
the fetched markup. -/
structure Env where
  hasRequests : Bool
  response : Option (Int × String)
  hasWhois : Bool
  whoisOutcome : WhoisOutcome
  hasDnsLib : Bool
  dnsOk : Bool
  ssl : SslOutcome
  regDomain : String
  subdomain : String
  scan : HtmlScan
deriving Repr, DecidableEq

/-! ## The probe helpers of `src/utils/url_extractor.py` -/

/-- `fetch_content`: `(None, None)` when `requests` is missing or the
request raised, otherwise the status code and the body truncated to its
first 100000 characters (`r.text[:100000]`). -/
def fetch_content (env : Env) : Option Int × Option String :=
  if !env.hasRequests then (none, none)
  else
    match env.response with
    | none => (none, none)
    | some (code, body) => (some code, some (strTake body 100000))

/-- `get_domain_age`: `-1` (unknown = suspicious) when the `whois` module
is missing, the domain is empty, the lookup raises, or the creation date
is absent or a string; otherwise the age in days. -/
def get_domain_age (hasWhois : Bool) (domain : String) (o : WhoisOutcome) : Int :=
  if !hasWhois || domain = "" then -1
  else
    match o with
    | .creationDate d => d
    | _ => -1

/-- `check_ssl`: `-1` when the URL does not start with `https`, otherwise
the day-bucketed certificate validity, with every connection, handshake or
parse failure collapsing to `-1` and a certificate without `notAfter`
giving `0`. -/
def check_ssl (url : String) (host : String) (o : SslOutcome) : Int :=
  if !strStarts url "https" then -1
  else
    match o with
    | .connError => -1
    | .parseError => -1
    | .certNoExpiry => 0
    | .certExpiry d => if d > 365 then 1 else if d > 30 then 0 else -1

/-- `check_dns`: `-1` when the resolver module is missing, the domain is
empty, or the `A`-record lookup raises; `1` when it resolves. -/
def check_dns (hasDnsLib : Bool) (domain : String) (ok : Bool) : Int :=
  if !hasDnsLib || domain = "" then -1
  else if ok then 1 else -1

/-! ## Feature assembly -/

/-- The URL-shortener hosts recognised by the extractor. -/
def SHORTENERS : List String :=
  ["bit.ly", "goo.gl", "tinyurl.com", "ow.ly", "t.co", "is.gd", "buff.ly", "adf.ly"]

/-- The training-column order of the extractor (`COLUMNS`),
ending with the label column `Result`. -/
def COLUMNS : List String := [
  "having_IP_Address", "URL_Length", "Shortining_Service", "having_At_Symbol",
  "double_slash_redirecting", "Prefix_Suffix", "having_Sub_Domain", "SSLfinal_State",
  "Domain_registeration_length", "Favicon", "port", "HTTPS_token", "Request_URL",
  "URL_of_Anchor", "Links_in_tags", "SFH", "Submitting_to_email", "Abnormal_URL",
  "Redirect", "on_mouseover", "RightClick", "popUpWidnow", "Iframe", "age_of_domain",
  "DNSRecord", "web_traffic", "Page_Rank", "Google_Index", "Links_pointing_to_page",
  "Statistical_report", "Result"
]

/-- The regex `^\d+\.\d+\.\d+\.\d+$` of the IP-address check: four
non-empty all-digit labels. -/
def looksLikeIp (host : String) : Bool :=
  match strSplit host '.' with
  | [a, b, c, d] => [a, b, c, d].all (fun p => p ≠ "" && p.toList.all Char.isDigit)
  | _ => false

/-- The ten markup-derived signals, grouped so that both branches of the
extractor produce the same record shape. -/
structure HtmlSignals where
  favicon : Int
  requestUrl : Int
  urlOfAnchor : Int
  linksInTags : Int
  sfh : Int
  submittingToEmail : Int
  onMouseover : Int
  rightClick : Int
  popUpWidnow : Int
  iframe : Int
deriving Repr, DecidableEq

/-- Whether one `src`/`href` match counts as external: it has a netloc and
its registrable domain differs from the page's. -/
def externalLink (domain : String) : Option String → Bool
  | none => false
  | some rd => rd ≠ domain

/-- Whether one anchor counts suspicious: href starts with `#`,
`javascript:` or `mailto:`, or it points at a foreign registrable domain. -/
def suspiciousAnchor (domain : String) (a : Anchor) : Bool :=
  a.suspScheme ||
    match a.dom with
    | none => false
    | some rd => rd ≠ domain

/-- Percentage `count / total * 100` as a rational, `0` when the list was
empty (the Python comprehensions guard `if links else 0`). -/
def pct (count total : Nat) : ℚ :=
  if total = 0 then 0 else (count : ℚ) / (total : ℚ) * 100

/-- The markup-analysis branch of `extract_features_from_url`
(taken when the body is non-empty and the status is 200). -/
def htmlSignalsOf (domain : String) (scan : HtmlScan) : HtmlSignals :=
  let favicon :=
    match scan.favicon with
    | some fd => if fd ≠ "" ∧ fd ≠ domain then -1 else 1
    | none => 0
  let extPct := pct (scan.links.countP (externalLink domain)) scan.links.length
  let requestUrl : Int := if extPct < 22 then 1 else if extPct ≤ 61 then 0 else -1
  let anchPct := pct (scan.anchors.countP (suspiciousAnchor domain)) scan.anchors.length
  let urlOfAnchor : Int := if anchPct < 31 then 1 else if anchPct ≤ 67 then 0 else -1
  let tagPct := pct (scan.tags.countP (externalLink domain)) scan.tags.length
  let linksInTags : Int := if tagPct < 17 then 1 else if tagPct ≤ 81 then 0 else -1
  let sfh : Int :=
    if scan.forms.any (fun f => f = "" || strContains (strLower f) "about:blank") then -1 else 1
  { favicon := favicon
    requestUrl := requestUrl
    urlOfAnchor := urlOfAnchor
    linksInTags := linksInTags
    sfh := sfh
    submittingToEmail := if scan.hasMailto then -1 else 1
    onMouseover := if scan.hasMouseover then -1 else 1
    rightClick := if scan.hasRightClick then -1 else 1
    popUpWidnow := if scan.hasPopup then -1 else 1
    iframe := if scan.hasIframe then -1 else 1 }

/-- The fallback branch of `extract_features_from_url`, used when the
content was not fetched with status 200 and a non-empty body. -/
def defaultHtmlSignals : HtmlSignals :=
  { favicon := -1
    requestUrl := -1
    urlOfAnchor := -1
    linksInTags := -1
    sfh := -1
    submittingToEmail := 0
    onMouseover := 0
    rightClick := 0
    popUpWidnow := 0
    iframe := 0 }

/-- The condition guarding the markup-analysis branch of
`extract_features_from_url`: `if html and status == 200` after
`html = html or ''`. -/
def htmlBranch (env : Env) : Prop :=
  ((fetch_content env).2.getD "") ≠ "" ∧ (fetch_content env).1 = some 200

instance (env : Env) : Decidable (htmlBranch env) := by
  unfold htmlBranch
  infer_instance

/-- The age bucketing applied inside `extract_features_from_url`:
`-1` when the WHOIS age is unknown, then `1` for at least 365 days,
`0` for at least 180 days, `-1` otherwise. -/
def age_value (env : Env) : Int :=
  let age_days := get_domain_age env.hasWhois env.regDomain env.whoisOutcome
  if age_days = -1 then -1
  else if age_days ≥ 365 then 1
  else if age_days ≥ 180 then 0
  else -1

/-- The markup-derived signals actually stored: the analysis of the scan
when the branch condition holds, the fixed fallbacks otherwise. -/
def html_signals (env : Env) : HtmlSignals :=
  if htmlBranch env then htmlSignalsOf env.regDomain env.scan
  else defaultHtmlSignals

/-- The feature dictionary built by `extract_features_from_url` after a
successful validation, as the association list of its insertion order.
`parsed` is the result of the second `urlparse(url)` call. -/
def feature_list (url : String) (env : Env) (parsed : ParseResult) : List (String × Int) :=
  let host := hostOf parsed.netloc
  let domain := env.regDomain
  let subdomain := env.subdomain
  let status := (fetch_content env).1
  let urlLen := strLen url
  let subCount := if subdomain = "" then 0 else (strSplit subdomain '.').length
  let age_val : Int := age_value env
  let hs := html_signals env
  [ ("having_IP_Address", if looksLikeIp host then -1 else 1),
    ("URL_Length", if urlLen < 54 then 1 else if urlLen ≤ 75 then 0 else -1),
    ("Shortining_Service", if SHORTENERS.any (fun s => strContains (strLower host) s) then -1 else 1),
    ("having_At_Symbol", if strHasChar url '@' then -1 else 1),
    ("double_slash_redirecting", if strContains parsed.path "//" then -1 else 1),
    ("Prefix_Suffix", if strHasChar host '-' then -1 else 1),
    ("having_Sub_Domain", if subCount ≤ 1 then 1 else if subCount = 2 then 0 else -1),
    ("SSLfinal_State", check_ssl url host env.ssl),
    ("Domain_registeration_length", age_val),
    ("age_of_domain", age_val),
    ("port",
      if strHasChar parsed.netloc ':' &&
          !((strSplit parsed.netloc ':').getLastD "" = "80" ||
            (strSplit parsed.netloc ':').getLastD "" = "443") then -1 else 1),
    ("HTTPS_token", if strContains (strLower host) "https" then -1 else 1),
    ("DNSRecord", check_dns env.hasDnsLib domain env.dnsOk),
    ("Favicon", hs.favicon),
    ("Request_URL", hs.requestUrl),
    ("URL_of_Anchor", hs.urlOfAnchor),
    ("Links_in_tags", hs.linksInTags),
    ("SFH", hs.sfh),
    ("Submitting_to_email", hs.submittingToEmail),
    ("on_mouseover", hs.onMouseover),
    ("RightClick", hs.rightClick),
    ("popUpWidnow", hs.popUpWidnow),
    ("Iframe", hs.iframe),
    ("Abnormal_URL", if domain ≠ "" ∧ parsed.scheme ≠ "" then 1 else -1),
    ("Redirect",
      match status with
      | some s => if 300 ≤ s ∧ s < 400 then -1 else 1
      | none => 1),
    ("web_traffic", 0),
    ("Page_Rank", 0),
    ("Google_Index", 0),
    ("Links_pointing_to_page", 0),
    ("Statistical_report", 0),
    ("Result", 1) ]

/-- `extract_features_from_url`: validation (re-raising its reason as
`Invalid URL: ...`), a second parse, and the feature dictionary. -/
def extract_features_from_url (url : String) (env : Env) :
    Except String (List (String × Int)) := do
  let vr ← validate_url url
  if !vr.1 then
    Except.error ("Invalid URL: " ++ vr.2)
  else do
    let parsed ← urlparse url
    Except.ok (feature_list url env parsed)

/-! ## The API layer (`api_utils.py`, `main.py`) -/

/-- `MODEL_FEATURE_ORDER` from `api_utils.py`: the column order the model
was trained on. -/
def MODEL_FEATURE_ORDER : List String := [
  "having_IP_Address", "URL_Length", "Shortining_Service", "having_At_Symbol",
  "double_slash_redirecting", "Prefix_Suffix", "having_Sub_Domain", "SSLfinal_State",
  "Domain_registeration_length", "Favicon", "port", "HTTPS_token", "Request_URL",
  "URL_of_Anchor", "Links_in_tags", "SFH", "Submitting_to_email", "Abnormal_URL",
  "Redirect", "on_mouseover", "RightClick", "popUpWidnow", "Iframe", "age_of_domain",
  "DNSRecord", "web_traffic", "Page_Rank", "Google_Index", "Links_pointing_to_page",
  "Statistical_report"
]

/-- `clean_features` from `api_utils.py` on the extractor's output: every
value is an integer, so the string-coercion and NaN/inf branches never
fire and the dictionary is returned unchanged. -/
def clean_features (fs : List (String × Int)) : List (String × Int) := fs

/-- One row produced by `process_url_features` in `main.py`: the feature
dictionary plus the `url` key added for reference. -/
structure UrlFeatures where
  url : String
  features : List (String × Int)
deriving Repr, DecidableEq

/-- `process_url_features` from `main.py`: extract and clean, returning
`none` when extraction raised (the failure is logged and swallowed). -/
def process_url_features (url : String) (env : Env) : Option UrlFeatures :=
  match extract_features_from_url url env with
  | .ok fs => some ⟨url, clean_features fs⟩
  | .error _ => none

/-- The extraction core of `predict_multi_url` in `main.py`:
`process_url_features` over the batch, keeping the successful rows
(`[f for f in results if f is not None]`, order preserved by
`asyncio.gather`). -/
def batch_extract (urls : List String) (envOf : String → Env) : List UrlFeatures :=
  (urls.map (fun u => process_url_features u (envOf u))).filterMap id

/-! ## Concrete environments used by the witnesses -/

/-- A scan of markup holding nothing of interest. -/
def emptyScan : HtmlScan :=
  { favicon := none, links := [], anchors := [], tags := [], forms := []
    hasMailto := false, hasMouseover := false, hasRightClick := false
    hasPopup := false, hasIframe := false }

/-- An offline world: no probe library is available. -/
def offlineEnv : Env :=
  { hasRequests := false, response := none, hasWhois := false
    whoisOutcome := .lookupError, hasDnsLib := false, dnsOk := false
    ssl := .connError, regDomain := "example.com", subdomain := "good"
    scan := emptyScan }

/-- A world where the page was fetched with status 200 and a non-empty
body whose scan found no favicon link element. -/
def fetchedEnv : Env :=
  { offlineEnv with
    hasRequests := true
    response := some (200, "<html><body>hello</body></html>") }

/-! ## The claim-side validation contract -/

/-- The value set of a single extracted signal. -/
def tri (x : Int) : Prop := x = -1 ∨ x = 0 ∨ x = 1

/-- The feature dictionary of `http://good.example.com` extracted in an
offline world, used as the concrete instance for the shape claim. -/
def goodFeatures : List (String × Int) :=
  feature_list "http://good.example.com" offlineEnv ⟨"http", "good.example.com", ""⟩

/-- A world with a WHOIS record 400 days old for the domain. -/
def agedEnv : Env := { offlineEnv with hasWhois := true, whoisOutcome := .creationDate 400 }

/-- The feature dictionary of `http://good.example.com` under `agedEnv`. -/
def agedFeatures : List (String × Int) :=
  feature_list "http://good.example.com" agedEnv ⟨"http", "good.example.com", ""⟩

/-- A fetched page whose favicon href points at a foreign registrable
domain. -/
def foreignFaviconEnv : Env :=
  { fetchedEnv with scan := { emptyScan with favicon := some "evil.example" } }

/-- The feature dictionary extracted under `foreignFaviconEnv`. -/
def foreignFaviconFeatures : List (String × Int) :=
  feature_list "http://good.example.com" foreignFaviconEnv ⟨"http", "good.example.com", ""⟩

/-- Apply an ordered rule list: the first rule that fails determines the
verdict and its reason; when every rule holds the candidate is valid. -/
def firstFailure : List (Bool × String) → Bool × String
  | [] => (true, "Valid URL")
  | (ok, reason) :: rest => if ok then firstFailure rest else (false, reason)

/-- The validation rules exactly as the specification words them, in the
stated order (the length rule is checked before parsing and is handled by
`validate_url_spec` itself): scheme present; scheme exactly `http` or
`https`; network-location present; host non-empty with at least one dot;
host does not start or end with a dot and has no `..`; host characters
restricted to alphanumerics, dots and hyphens; every dot-separated label
non-empty; final label alphabetic with length at least 2. -/
def spec_rules (p : ParseResult) : List (Bool × String) :=
  let host := hostOf p.netloc
  let parts := strSplit host '.'
  let tld := parts.getLastD ""
  [ (p.scheme != "", "Missing protocol (http:// or https://)"),
    (p.scheme == "http" || p.scheme == "https", "Invalid protocol: " ++ p.scheme),
    (p.netloc != "", "Invalid URL format. Missing domain"),
    (host != "" && strHasChar host '.', "Invalid domain. Must have at least one dot"),
    (!(strStarts host "." || strEnds host "." || strContains host ".."),
      "Invalid domain format"),
    (host.toList.all (fun c => c.isAlphanum || c = '.' || c = '-'),
      "Domain contains invalid characters"),
    (parts.all (fun q => q != ""), "Invalid domain structure"),
    (decide (2 ≤ strLen tld) && tld.toList.all Char.isAlpha, "Invalid TLD: ." ++ tld) ]

/-- The validation contract as the specification words it: candidates
shorter than 4 characters are rejected first, then the parsed URL is
checked against the ordered rule list, the first violated rule naming the
reason; parsing itself can fail (bracket-mismatched netloc). -/
def validate_url_spec (url : String) : Except String (Bool × String) :=
  if strLen url < 4 then
    Except.ok (false, "URL is too short")
  else do
    let p ← urlparse url
    Except.ok (firstFailure (spec_rules p))

/-! ## Sanity evaluations -/

example : validate_url "http://good.example.com" = Except.ok (true, "Valid URL") := by decide
example : validate_url "not a url" = Except.ok (false, "Missing protocol (http:// or https://)") := by decide
example : validate_url "http://[a" = Except.error "Invalid IPv6 URL" := by decide
example : validate_url "htt" = Except.ok (false, "URL is too short") := by decide
example : validate_url "ftp://a.com" = Except.ok (false, "Invalid protocol: ftp") := by decide
example : validate_url "http://ab" = Except.ok (false, "Invalid domain. Must have at least one dot") := by decide
example : validate_url "http://a..b.com" = Except.ok (false, "Invalid domain format") := by decide
example : validate_url "http://a_b.com" = Except.ok (false, "Domain contains invalid characters") := by decide
example : validate_url "http://a.b.c7" = Except.ok (false, "Invalid TLD: .c7") := by decide
example : urlparse "HTTPS://example.com" = Except.ok ⟨"https", "example.com", ""⟩ := by decide
example : urlparse "http://a.com:8080/p//q?x=1#f" = Except.ok ⟨"http", "a.com:8080", "/p//q"⟩ := by decide

example :
    (extract_features_from_url "http://good.example.com" offlineEnv).toOption.bind
      (List.lookup "Favicon") = some (-1) := by decide
example :
    (extract_features_from_url "http://good.example.com" fetchedEnv).toOption.bind
      (List.lookup "Favicon") = some 0 := by decide
example :
    (extract_features_from_url "not a url" offlineEnv) =
      Except.error "Invalid URL: Missing protocol (http:// or https://)" := by decide

/-! ## Helper lemmas -/

lemma tri_ite {c : Prop} [Decidable c] {a b : Int} (ha : tri a) (hb : tri b) :
    tri (if c then a else b) := by
  split <;> assumption

lemma tri_neg1 : tri (-1) := Or.inl rfl

lemma tri_zero : tri 0 := Or.inr (Or.inl rfl)

lemma tri_one : tri 1 := Or.inr (Or.inr rfl)

/-- A successful extraction is exactly a successful validation with a
positive verdict followed by the feature assembly on the re-parsed URL. -/
lemma extract_ok_elim {url : String} {env : Env} {fs : List (String × Int)}
    (h : extract_features_from_url url env = .ok fs) :
    ∃ parsed, urlparse url = .ok parsed ∧ fs = feature_list url env parsed := by
  unfold extract_features_from_url at h
  simp only [Bind.bind, Except.bind] at h
  cases hv : validate_url url with
  | error e => rw [hv] at h; simp at h
  | ok vr =>
    rw [hv] at h
    dsimp only at h
    by_cases hb : vr.1 = true
    · rw [hb] at h
      simp only [Bool.not_true, Bool.false_eq_true, if_false] at h
      cases hp : urlparse url with
      | error e => rw [hp] at h; simp at h
      | ok parsed =>
        rw [hp] at h
        simp only [Except.ok.injEq] at h
        exact ⟨parsed, rfl, h.symm⟩
    · have hb' : vr.1 = false := by revert hb; cases vr.1 <;> simp
      rw [hb'] at h
      simp at h

/-- The keys of the assembled feature dictionary, in insertion order. -/
lemma feature_list_keys (url : String) (env : Env) (parsed : ParseResult) :
    (feature_list url env parsed).map Prod.fst =
      [ "having_IP_Address", "URL_Length", "Shortining_Service", "having_At_Symbol",
        "double_slash_redirecting", "Prefix_Suffix", "having_Sub_Domain", "SSLfinal_State",
        "Domain_registeration_length", "age_of_domain", "port", "HTTPS_token", "DNSRecord",
        "Favicon", "Request_URL", "URL_of_Anchor", "Links_in_tags", "SFH",
        "Submitting_to_email", "on_mouseover", "RightClick", "popUpWidnow", "Iframe",
        "Abnormal_URL", "Redirect", "web_traffic", "Page_Rank", "Google_Index",
        "Links_pointing_to_page", "Statistical_report", "Result" ] := rfl

/-! ## Claim C9 -/

/-- Claim C9: `MODEL_FEATURE_ORDER` in `api_utils.py` is exactly the
extractor's `COLUMNS` list with its final entry `Result` removed,
element by element and in order. -/
theorem model_feature_order_is_columns_without_result :
    MODEL_FEATURE_ORDER = COLUMNS.dropLast := by decide

/-! ## Claim C8 -/

/-- Claim C8: `fetch_content` never raises: it returns either a status
code paired with a body snapshot capped at 100000 characters, or
`(None, None)` whenever the `requests` capability is missing or the
request raised (network error, timeout, decode failure). -/
theorem fetch_content_total_and_capped (env : Env) :
    (fetch_content env = (none, none) ∨
      ∃ c b, fetch_content env = (some c, some b) ∧ strLen b ≤ 100000) ∧
    (env.hasRequests = false ∨ env.response = none → fetch_content env = (none, none)) ∧
    (∀ c b, env.hasRequests = true → env.response = some (c, b) →
      fetch_content env = (some c, some (strTake b 100000))) := by
  refine ⟨?_, ?_, ?_⟩
  · unfold fetch_content
    by_cases hr : env.hasRequests
    · cases hresp : env.response with
      | none => simp [hr, hresp]
      | some p =>
        right
        refine ⟨p.1, strTake p.2 100000, by simp [hr, hresp], ?_⟩
        unfold strTake strLen
        simp only [List.asString, String.toList]
        exact List.length_take_le _ _
    · simp [hr]
  · intro h
    unfold fetch_content
    rcases h with h | h <;> simp [h]
  · intro c b hr hresp
    unfold fetch_content
    simp [hr, hresp]

/-- Witness for C8 at a concrete environment. -/
theorem fetch_content_total_and_capped_witness :
    fetch_content offlineEnv = (none, none) :=
  (fetch_content_total_and_capped offlineEnv).2.1 (Or.inl rfl)

/-! ## Claim C4 -/

/-- Counterexample to claim C4 as stated: `check_ssl` gates on
`url.startswith('https')`, not on the parsed scheme.  The URL
`HTTPS://example.com` has scheme `https` (CPython lower-cases it), so the
claim demands the bucketed certificate policy — value `1` for a
certificate valid for 400 > 365 more days — yet the code returns `-1`
immediately because the raw URL does not start with the lowercase literal
`https`. -/
theorem check_ssl_scheme_gate_cex :
    check_ssl "HTTPS://example.com" "example.com" (.certExpiry 400) = -1 ∧
    (urlparse "HTTPS://example.com").toOption.map ParseResult.scheme = some "https" ∧
    (400 : Int) > 365 := by decide

/-- Claim C4 (amended): `check_ssl` returns `-1` immediately when the URL
does not start with the literal `https`; otherwise, with `d` the number of
days until certificate expiry, it returns `1` when `d > 365`, `0` when
`30 < d ≤ 365`, `-1` when `d ≤ 30`, and every connection, handshake or
certificate-parse error yields `-1` rather than a raised exception. -/
theorem check_ssl_policy (url host : String) (d : Int) :
    (¬ strStarts url "https" = true → ∀ o, check_ssl url host o = -1) ∧
    (strStarts url "https" = true →
      check_ssl url host .connError = -1 ∧
      check_ssl url host .parseError = -1 ∧
      (d > 365 → check_ssl url host (.certExpiry d) = 1) ∧
      (30 < d ∧ d ≤ 365 → check_ssl url host (.certExpiry d) = 0) ∧
      (d ≤ 30 → check_ssl url host (.certExpiry d) = -1)) := by
  constructor
  · intro hs o
    unfold check_ssl
    simp [hs]
  · intro hs
    unfold check_ssl
    refine ⟨by simp [hs], by simp [hs], ?_, ?_, ?_⟩
    · intro hd; simp [hs, hd]
    · intro hd
      have h365 : ¬ d > 365 := by omega
      have h30 : d > 30 := by omega
      simp [hs, h365, h30]
    · intro hd
      have h365 : ¬ d > 365 := by omega
      have h30 : ¬ d > 30 := by omega
      simp [hs, h365, h30]

/-- Witness for the amended C4 on a live certificate 400 days from
expiry. -/
theorem check_ssl_policy_witness :
    check_ssl "https://example.com" "example.com" (.certExpiry 400) = 1 :=
  ((check_ssl_policy "https://example.com" "example.com" 400).2 (by decide)).2.2.1
    (by decide)

/-! ## Claim C1 -/

lemma check_ssl_tri (url host : String) (o : SslOutcome) : tri (check_ssl url host o) := by
  unfold check_ssl
  split
  · exact tri_neg1
  · cases o
    exacts [tri_neg1, tri_neg1, tri_zero, tri_ite tri_one (tri_ite tri_zero tri_neg1)]

lemma check_dns_tri (hasDnsLib : Bool) (domain : String) (ok : Bool) :
    tri (check_dns hasDnsLib domain ok) := by
  unfold check_dns
  split
  · exact tri_neg1
  · exact tri_ite tri_one tri_neg1

lemma htmlSignalsOf_tri (d : String) (s : HtmlScan) :
    tri (htmlSignalsOf d s).favicon ∧ tri (htmlSignalsOf d s).requestUrl ∧
    tri (htmlSignalsOf d s).urlOfAnchor ∧ tri (htmlSignalsOf d s).linksInTags ∧
    tri (htmlSignalsOf d s).sfh ∧ tri (htmlSignalsOf d s).submittingToEmail ∧
    tri (htmlSignalsOf d s).onMouseover ∧ tri (htmlSignalsOf d s).rightClick ∧
    tri (htmlSignalsOf d s).popUpWidnow ∧ tri (htmlSignalsOf d s).iframe := by
  unfold htmlSignalsOf
  refine ⟨?_, ?_, ?_, ?_, ?_, ?_, ?_, ?_, ?_, ?_⟩ <;> dsimp only
  · cases h : s.favicon
    · exact tri_zero
    · exact tri_ite tri_neg1 tri_one
  · exact tri_ite tri_one (tri_ite tri_zero tri_neg1)
  · exact tri_ite tri_one (tri_ite tri_zero tri_neg1)
  · exact tri_ite tri_one (tri_ite tri_zero tri_neg1)
  · exact tri_ite tri_neg1 tri_one
  · exact tri_ite tri_neg1 tri_one
  · exact tri_ite tri_neg1 tri_one
  · exact tri_ite tri_neg1 tri_one
  · exact tri_ite tri_neg1 tri_one
  · exact tri_ite tri_neg1 tri_one

set_option maxHeartbeats 1000000 in
lemma feature_keys_perm_columns :
    List.Perm
      [ "having_IP_Address", "URL_Length", "Shortining_Service", "having_At_Symbol",
        "double_slash_redirecting", "Prefix_Suffix", "having_Sub_Domain", "SSLfinal_State",
        "Domain_registeration_length", "age_of_domain", "port", "HTTPS_token", "DNSRecord",
        "Favicon", "Request_URL", "URL_of_Anchor", "Links_in_tags", "SFH",
        "Submitting_to_email", "on_mouseover", "RightClick", "popUpWidnow", "Iframe",
        "Abnormal_URL", "Redirect", "web_traffic", "Page_Rank", "Google_Index",
        "Links_pointing_to_page", "Statistical_report", "Result" ]
      COLUMNS := by decide

/-- Whichever branch the extractor takes, each markup-derived signal slot
carries `-1`, `0` or `1`. -/
lemma hsel_tri (env : Env) :
    tri (html_signals env).favicon ∧ tri (html_signals env).requestUrl ∧
    tri (html_signals env).urlOfAnchor ∧ tri (html_signals env).linksInTags ∧
    tri (html_signals env).sfh ∧ tri (html_signals env).submittingToEmail ∧
    tri (html_signals env).onMouseover ∧ tri (html_signals env).rightClick ∧
    tri (html_signals env).popUpWidnow ∧ tri (html_signals env).iframe := by
  unfold html_signals
  by_cases hb : htmlBranch env
  · simp only [if_pos hb]
    exact htmlSignalsOf_tri env.regDomain env.scan
  · simp only [if_neg hb]
    exact ⟨tri_neg1, tri_neg1, tri_neg1, tri_neg1, tri_neg1,
      tri_zero, tri_zero, tri_zero, tri_zero, tri_zero⟩

set_option maxHeartbeats 1000000 in
/-- Claim C1: every successful extraction returns exactly 31 entries —
the 30 signal names plus the label entry `Result` (the keys are a
permutation of `COLUMNS`) — and every signal value is `-1`, `0` or `1`. -/
theorem extract_feature_shape (url : String) (env : Env) (fs : List (String × Int))
    (h : extract_features_from_url url env = .ok fs) :
    fs.length = 31 ∧ (fs.map Prod.fst).Perm COLUMNS ∧
    ∀ p ∈ fs, p.1 ≠ "Result" → p.2 = -1 ∨ p.2 = 0 ∨ p.2 = 1 := by
  obtain ⟨parsed, hp, rfl⟩ := extract_ok_elim h
  refine ⟨rfl, ?_, ?_⟩
  · rw [feature_list_keys]
    exact feature_keys_perm_columns
  · intro p hmem
    simp only [feature_list, List.mem_cons, List.not_mem_nil, or_false] at hmem
    rcases hmem with rfl|rfl|rfl|rfl|rfl|rfl|rfl|rfl|rfl|rfl|rfl|rfl|rfl|rfl|rfl|rfl|
      rfl|rfl|rfl|rfl|rfl|rfl|rfl|rfl|rfl|rfl|rfl|rfl|rfl|rfl|rfl <;> intro hne <;>
      dsimp only <;>
    first
      | exact absurd rfl hne
      | exact check_ssl_tri _ _ _
      | exact check_dns_tri _ _ _
      | exact tri_zero
      | exact tri_one
      | exact tri_ite tri_neg1 tri_one
      | exact tri_ite tri_one tri_neg1
      | exact tri_ite tri_one (tri_ite tri_zero tri_neg1)
      | exact tri_ite tri_neg1 (tri_ite tri_one (tri_ite tri_zero tri_neg1))
      | exact (hsel_tri env).1
      | exact (hsel_tri env).2.1
      | exact (hsel_tri env).2.2.1
      | exact (hsel_tri env).2.2.2.1
      | exact (hsel_tri env).2.2.2.2.1
      | exact (hsel_tri env).2.2.2.2.2.1
      | exact (hsel_tri env).2.2.2.2.2.2.1
      | exact (hsel_tri env).2.2.2.2.2.2.2.1
      | exact (hsel_tri env).2.2.2.2.2.2.2.2.1
      | exact (hsel_tri env).2.2.2.2.2.2.2.2.2
      | (cases hst : (fetch_content env).1
         · exact tri_one
         · exact tri_ite tri_neg1 tri_one)

/-- Witness for C1 at a concrete URL and environment. -/
theorem extract_feature_shape_witness :
    goodFeatures.length = 31 ∧ (goodFeatures.map Prod.fst).Perm COLUMNS ∧
    ∀ p ∈ goodFeatures, p.1 ≠ "Result" → p.2 = -1 ∨ p.2 = 0 ∨ p.2 = 1 :=
  extract_feature_shape "http://good.example.com" offlineEnv goodFeatures (by decide)

/-! ## Lookup equations for the assembled dictionary -/

lemma lookup_domreg (url : String) (env : Env) (parsed : ParseResult) :
    List.lookup "Domain_registeration_length" (feature_list url env parsed) =
      some (age_value env) := rfl

lemma lookup_age (url : String) (env : Env) (parsed : ParseResult) :
    List.lookup "age_of_domain" (feature_list url env parsed) =
      some (age_value env) := rfl

lemma lookup_favicon (url : String) (env : Env) (parsed : ParseResult) :
    List.lookup "Favicon" (feature_list url env parsed) =
      some (html_signals env).favicon := rfl

lemma lookup_requestUrl (url : String) (env : Env) (parsed : ParseResult) :
    List.lookup "Request_URL" (feature_list url env parsed) =
      some (html_signals env).requestUrl := rfl

lemma lookup_urlOfAnchor (url : String) (env : Env) (parsed : ParseResult) :
    List.lookup "URL_of_Anchor" (feature_list url env parsed) =
      some (html_signals env).urlOfAnchor := rfl

lemma lookup_linksInTags (url : String) (env : Env) (parsed : ParseResult) :
    List.lookup "Links_in_tags" (feature_list url env parsed) =
      some (html_signals env).linksInTags := rfl

lemma lookup_sfh (url : String) (env : Env) (parsed : ParseResult) :
    List.lookup "SFH" (feature_list url env parsed) =
      some (html_signals env).sfh := rfl

lemma lookup_onMouseover (url : String) (env : Env) (parsed : ParseResult) :
    List.lookup "on_mouseover" (feature_list url env parsed) =
      some (html_signals env).onMouseover := rfl

lemma lookup_rightClick (url : String) (env : Env) (parsed : ParseResult) :
    List.lookup "RightClick" (feature_list url env parsed) =
      some (html_signals env).rightClick := rfl

lemma lookup_popUpWidnow (url : String) (env : Env) (parsed : ParseResult) :
    List.lookup "popUpWidnow" (feature_list url env parsed) =
      some (html_signals env).popUpWidnow := rfl

lemma lookup_iframe (url : String) (env : Env) (parsed : ParseResult) :
    List.lookup "Iframe" (feature_list url env parsed) =
      some (html_signals env).iframe := rfl

/-! ## Claim C10 -/

/-- Claim C10: on every successful extraction the two signals
`Domain_registeration_length` and `age_of_domain` are equal — both are
written from the single WHOIS-derived age bucket. -/
theorem domain_age_signals_equal (url : String) (env : Env) (fs : List (String × Int))
    (h : extract_features_from_url url env = .ok fs) :
    List.lookup "Domain_registeration_length" fs = List.lookup "age_of_domain" fs ∧
    List.lookup "Domain_registeration_length" fs = some (age_value env) := by
  obtain ⟨parsed, hp, rfl⟩ := extract_ok_elim h
  exact ⟨(lookup_domreg url env parsed).trans (lookup_age url env parsed).symm,
    lookup_domreg url env parsed⟩

/-- Witness for C10 at a concrete URL and environment. -/
theorem domain_age_signals_equal_witness :
    List.lookup "Domain_registeration_length" goodFeatures =
      List.lookup "age_of_domain" goodFeatures ∧
    List.lookup "Domain_registeration_length" goodFeatures = some (age_value offlineEnv) :=
  domain_age_signals_equal "http://good.example.com" offlineEnv goodFeatures (by decide)

/-! ## Claim C5 -/

/-- Claim C5: the age signal written to both `Domain_registeration_length`
and `age_of_domain` is `1` when the WHOIS age in days is at least 365,
`0` when it is at least 180 and below 365, and `-1` otherwise; whenever
the WHOIS age is unavailable (no whois capability, empty registrable
domain, missing or string-typed creation date, or a lookup error) the
signal is `-1`. -/
theorem age_bucket_policy (url : String) (env : Env) (fs : List (String × Int))
    (h : extract_features_from_url url env = .ok fs) :
    (∀ d : Int, env.hasWhois = true → env.regDomain ≠ "" →
      env.whoisOutcome = .creationDate d →
      ((365 ≤ d → List.lookup "Domain_registeration_length" fs = some 1 ∧
        List.lookup "age_of_domain" fs = some 1) ∧
       (180 ≤ d ∧ d < 365 → List.lookup "Domain_registeration_length" fs = some 0 ∧
        List.lookup "age_of_domain" fs = some 0) ∧
       (d < 180 → List.lookup "Domain_registeration_length" fs = some (-1) ∧
        List.lookup "age_of_domain" fs = some (-1)))) ∧
    ((env.hasWhois = false ∨ env.regDomain = "" ∨
        ∀ d : Int, env.whoisOutcome ≠ .creationDate d) →
      List.lookup "Domain_registeration_length" fs = some (-1) ∧
      List.lookup "age_of_domain" fs = some (-1)) := by
  obtain ⟨parsed, hp, rfl⟩ := extract_ok_elim h
  rw [lookup_domreg url env parsed, lookup_age url env parsed]
  constructor
  · intro d hw hdom ho
    have hval : age_value env =
        (if d = -1 then -1 else if d ≥ 365 then 1 else if d ≥ 180 then 0 else (-1 : Int)) := by
      unfold age_value get_domain_age
      simp [hw, hdom, ho]
    refine ⟨?_, ?_, ?_⟩
    · intro hd
      rw [hval, if_neg (by omega), if_pos (by omega)]
      exact ⟨rfl, rfl⟩
    · intro hd
      rw [hval, if_neg (by omega), if_neg (by omega), if_pos (by omega)]
      exact ⟨rfl, rfl⟩
    · intro hd
      by_cases hone : d = -1
      · rw [hval, if_pos hone]; exact ⟨rfl, rfl⟩
      · rw [hval, if_neg hone, if_neg (by omega), if_neg (by omega)]
        exact ⟨rfl, rfl⟩
  · intro hun
    have hage : get_domain_age env.hasWhois env.regDomain env.whoisOutcome = -1 := by
      unfold get_domain_age
      rcases hun with hw | hdom | ho
      · simp [hw]
      · simp [hdom]
      · split
        · rfl
        · cases hwo : env.whoisOutcome
          · rfl
          · rfl
          · rfl
          · exact absurd hwo (ho _)
    have : age_value env = -1 := by
      unfold age_value
      rw [hage]
      rfl
    rw [this]
    exact ⟨rfl, rfl⟩

/-- Witness for C5: a 400-day-old domain buckets to `1` in both slots. -/
theorem age_bucket_policy_witness :
    List.lookup "Domain_registeration_length" agedFeatures = some 1 ∧
    List.lookup "age_of_domain" agedFeatures = some 1 :=
  ((age_bucket_policy "http://good.example.com" agedEnv agedFeatures (by decide)).1
    400 rfl (by decide) rfl).1 (by decide)

/-! ## Claim C2 -/

/-- Claim C2: whenever the content was not fetched with HTTP status 200
and a non-empty body, the markup analysis does not run: `Favicon`,
`Request_URL`, `URL_of_Anchor`, `Links_in_tags` and `SFH` default to `-1`
and the four JavaScript-trick signals `on_mouseover`, `RightClick`,
`popUpWidnow` and `Iframe` default to `0`. -/
theorem html_fallback_defaults (url : String) (env : Env) (fs : List (String × Int))
    (h : extract_features_from_url url env = .ok fs) (hb : ¬ htmlBranch env) :
    List.lookup "Favicon" fs = some (-1) ∧
    List.lookup "Request_URL" fs = some (-1) ∧
    List.lookup "URL_of_Anchor" fs = some (-1) ∧
    List.lookup "Links_in_tags" fs = some (-1) ∧
    List.lookup "SFH" fs = some (-1) ∧
    List.lookup "on_mouseover" fs = some 0 ∧
    List.lookup "RightClick" fs = some 0 ∧
    List.lookup "popUpWidnow" fs = some 0 ∧
    List.lookup "Iframe" fs = some 0 := by
  obtain ⟨parsed, hp, rfl⟩ := extract_ok_elim h
  have hd : html_signals env = defaultHtmlSignals := by
    unfold html_signals
    rw [if_neg hb]
  rw [lookup_favicon, lookup_requestUrl, lookup_urlOfAnchor, lookup_linksInTags,
    lookup_sfh, lookup_onMouseover, lookup_rightClick, lookup_popUpWidnow,
    lookup_iframe, hd]
  exact ⟨rfl, rfl, rfl, rfl, rfl, rfl, rfl, rfl, rfl⟩

/-- Witness for C2: an offline fetch leaves every markup signal at its
fallback. -/
theorem html_fallback_defaults_witness :
    List.lookup "Favicon" goodFeatures = some (-1) ∧
    List.lookup "Request_URL" goodFeatures = some (-1) ∧
    List.lookup "URL_of_Anchor" goodFeatures = some (-1) ∧
    List.lookup "Links_in_tags" goodFeatures = some (-1) ∧
    List.lookup "SFH" goodFeatures = some (-1) ∧
    List.lookup "on_mouseover" goodFeatures = some 0 ∧
    List.lookup "RightClick" goodFeatures = some 0 ∧
    List.lookup "popUpWidnow" goodFeatures = some 0 ∧
    List.lookup "Iframe" goodFeatures = some 0 :=
  html_fallback_defaults "http://good.example.com" offlineEnv goodFeatures
    (by decide) (by decide)

/-! ## Claim C3 -/

/-- Counterexample to claim C3 as stated: a page fetched with status 200
and a non-empty body in which no favicon link element is found yields
`Favicon = 0` (the code comments it as `No favicon = neutral`), not the
claimed `1`. -/
theorem favicon_none_found_cex :
    fetchedEnv.scan.favicon = none ∧ htmlBranch fetchedEnv ∧
    (extract_features_from_url "http://good.example.com" fetchedEnv).toOption.bind
      (List.lookup "Favicon") = some 0 ∧ (0 : Int) ≠ 1 := by decide

/-- Claim C3 (amended): on a fetched page (status 200, non-empty body) the
`Favicon` signal is `-1` when the favicon href resolves to a non-empty
registrable domain different from the page's, `1` when the href's domain
matches the page's or is empty (relative href), and `0` when no favicon
link element is found. -/
theorem favicon_rule (url : String) (env : Env) (fs : List (String × Int))
    (h : extract_features_from_url url env = .ok fs) (hb : htmlBranch env) :
    (env.scan.favicon = none → List.lookup "Favicon" fs = some 0) ∧
    (∀ fd, env.scan.favicon = some fd → fd ≠ "" → fd ≠ env.regDomain →
      List.lookup "Favicon" fs = some (-1)) ∧
    (∀ fd, env.scan.favicon = some fd → (fd = "" ∨ fd = env.regDomain) →
      List.lookup "Favicon" fs = some 1) := by
  obtain ⟨parsed, hp, rfl⟩ := extract_ok_elim h
  rw [lookup_favicon]
  have hd : html_signals env = htmlSignalsOf env.regDomain env.scan := by
    unfold html_signals
    rw [if_pos hb]
  rw [hd]
  unfold htmlSignalsOf
  refine ⟨?_, ?_, ?_⟩ <;> dsimp only
  · intro hf
    rw [hf]
  · intro fd hf h1 h2
    rw [hf]
    dsimp only
    rw [if_pos ⟨h1, h2⟩]
  · intro fd hf hor
    rw [hf]
    dsimp only
    rw [if_neg (by tauto)]

/-- Witness for the amended C3: a foreign favicon domain scores `-1`. -/
theorem favicon_rule_witness :
    List.lookup "Favicon" foreignFaviconFeatures = some (-1) :=
  (favicon_rule "http://good.example.com" foreignFaviconEnv foreignFaviconFeatures
    (by decide) (by decide)).2.1 "evil.example" rfl (by decide) (by decide)

/-! ## Claim C7 -/

lemma process_isSome (u : String) (env : Env) :
    (process_url_features u env).isSome =
      (extract_features_from_url u env).toOption.isSome := by
  unfold process_url_features
  cases h : extract_features_from_url u env <;> simp [Except.toOption]

lemma batch_extract_length (urls : List String) (envOf : String → Env) :
    (batch_extract urls envOf).length =
      urls.countP (fun u => (extract_features_from_url u (envOf u)).toOption.isSome) := by
  induction urls with
  | nil => rfl
  | cons u t ih =>
    unfold batch_extract at ih ⊢
    simp only [List.map_cons, List.filterMap_cons, List.countP_cons, id]
    cases hpu : process_url_features u (envOf u) with
    | none =>
      have hx : (extract_features_from_url u (envOf u)).toOption.isSome = false := by
        rw [← process_isSome, hpu]
        rfl
      simp [hx]
      simpa [List.filterMap_map, Function.comp] using ih
    | some v =>
      have hx : (extract_features_from_url u (envOf u)).toOption.isSome = true := by
        rw [← process_isSome, hpu]
        rfl
      simp [hx]
      simpa [List.filterMap_map, Function.comp] using ih

lemma batch_extract_mem {urls : List String} {envOf : String → Env} {r : UrlFeatures}
    (hr : r ∈ batch_extract urls envOf) :
    r.url ∈ urls ∧ extract_features_from_url r.url (envOf r.url) = .ok r.features := by
  unfold batch_extract at hr
  rw [List.mem_filterMap] at hr
  obtain ⟨a, ha, haeq⟩ := hr
  simp only [List.mem_map] at ha
  obtain ⟨u, hu, rfl⟩ := ha
  simp only [id] at haeq
  unfold process_url_features at haeq
  cases hx : extract_features_from_url u (envOf u) with
  | error e => rw [hx] at haeq; simp at haeq
  | ok fs =>
    rw [hx] at haeq
    simp only [Option.some.injEq] at haeq
    rw [← haeq]
    exact ⟨hu, hx⟩

lemma extract_ok_of_valid (url : String) (env : Env) (p : ParseResult)
    (hv : validate_url url = .ok (true, "Valid URL")) (hp : urlparse url = .ok p) :
    extract_features_from_url url env = .ok (feature_list url env p) := by
  unfold extract_features_from_url
  simp [Bind.bind, Except.bind, hv, hp]

lemma extract_error_of_invalid (url r : String) (env : Env)
    (hv : validate_url url = .ok (false, r)) :
    extract_features_from_url url env = .error ("Invalid URL: " ++ r) := by
  unfold extract_features_from_url
  simp [Bind.bind, Except.bind, hv]

/-- Claim C7: batch extraction returns one row per URL whose extraction
succeeded, each row carrying its originating URL and that URL's feature
dictionary, silently omitting every URL whose extraction raised; in
particular, for every world, the batch
`["http://good.example.com", "not a url", "http://bit.ly/xyz"]` yields
exactly 2 rows — the invalid entry dropped — and the `bit.ly` row has
`Shortining_Service = -1`. -/
theorem batch_extraction_spec (urls : List String) (envOf : String → Env) :
    ((batch_extract urls envOf).length =
      urls.countP (fun u => (extract_features_from_url u (envOf u)).toOption.isSome)) ∧
    (∀ r ∈ batch_extract urls envOf,
      r.url ∈ urls ∧ extract_features_from_url r.url (envOf r.url) = .ok r.features) ∧
    ((batch_extract ["http://good.example.com", "not a url", "http://bit.ly/xyz"] envOf).length = 2 ∧
      (batch_extract ["http://good.example.com", "not a url", "http://bit.ly/xyz"] envOf).map
        UrlFeatures.url = ["http://good.example.com", "http://bit.ly/xyz"] ∧
      ((batch_extract ["http://good.example.com", "not a url", "http://bit.ly/xyz"] envOf).map
        (fun r => List.lookup "Shortining_Service" r.features)).getLastD none = some (-1)) := by
  refine ⟨batch_extract_length urls envOf, fun r hr => batch_extract_mem hr, ?_⟩
  have h1 : process_url_features "http://good.example.com" (envOf "http://good.example.com") =
      some ⟨"http://good.example.com",
        feature_list "http://good.example.com" (envOf "http://good.example.com")
          ⟨"http", "good.example.com", ""⟩⟩ := by
    unfold process_url_features
    rw [extract_ok_of_valid "http://good.example.com" _
      ⟨"http", "good.example.com", ""⟩ (by decide) (by decide)]
    rfl
  have h2 : process_url_features "not a url" (envOf "not a url") = none := by
    unfold process_url_features
    rw [extract_error_of_invalid "not a url"
      "Missing protocol (http:// or https://)" _ (by decide)]
  have h3 : process_url_features "http://bit.ly/xyz" (envOf "http://bit.ly/xyz") =
      some ⟨"http://bit.ly/xyz",
        feature_list "http://bit.ly/xyz" (envOf "http://bit.ly/xyz")
          ⟨"http", "bit.ly", "/xyz"⟩⟩ := by
    unfold process_url_features
    rw [extract_ok_of_valid "http://bit.ly/xyz" _
      ⟨"http", "bit.ly", "/xyz"⟩ (by decide) (by decide)]
    rfl
  have hb : batch_extract ["http://good.example.com", "not a url", "http://bit.ly/xyz"] envOf =
      [⟨"http://good.example.com",
        feature_list "http://good.example.com" (envOf "http://good.example.com")
          ⟨"http", "good.example.com", ""⟩⟩,
       ⟨"http://bit.ly/xyz",
        feature_list "http://bit.ly/xyz" (envOf "http://bit.ly/xyz")
          ⟨"http", "bit.ly", "/xyz"⟩⟩] := by
    unfold batch_extract
    simp [h1, h2, h3]
  rw [hb]
  refine ⟨rfl, rfl, ?_⟩
  simp only [List.map_cons, List.map_nil]
  rfl

/-- Witness for C7: the concrete three-URL batch in the offline world. -/
theorem batch_extraction_spec_witness :
    (batch_extract ["http://good.example.com", "not a url", "http://bit.ly/xyz"]
      (fun _ => offlineEnv)).length = 2 :=
  (batch_extraction_spec ["http://good.example.com", "not a url", "http://bit.ly/xyz"]
    (fun _ => offlineEnv)).2.2.1

/-! ## Claim C6 -/

/-- A string has length zero exactly when it is empty. -/
lemma strLen_eq_zero (q : String) : strLen q = 0 ↔ q = "" := by
  constructor
  · intro h
    have hd : q.toList = [] := List.length_eq_zero.mp h
    have hq : q = ⟨[]⟩ := by
      cases q
      simp only [String.toList] at hd
      rw [hd]
    rw [hq]
  · intro h
    rw [h]
    rfl

/-- Splitting a decidable conjunction of a proposition and a Bool. -/
lemma decide_and_bool (A : Prop) [Decidable A] (b : Bool) :
    (decide A && b) = decide (A ∧ b = true) := by
  by_cases hA : A <;> cases b <;> simp [hA]

/-- Counterexample to the `never raises` part of claim C6: a candidate
whose netloc contains `[` without `]` makes `urlparse` — and therefore
`validate_url` — raise `ValueError("Invalid IPv6 URL")` instead of
returning a verdict. -/
theorem validate_url_raises_cex :
    validate_url "http://[a" = Except.error "Invalid IPv6 URL" := by decide

set_option maxHeartbeats 4000000 in
/-- Claim C6 (amended): `validate_url` implements exactly the ordered
rule list of the specification — first violated rule wins and names the
reason, `Valid` exactly when all rules hold — and it is pure, except that
a candidate whose netloc holds `[` without `]` (or vice versa) propagates
`urlparse`'s `ValueError` instead of returning a verdict. -/
theorem validate_url_follows_spec_rules (url : String) :
    validate_url url = validate_url_spec url := by
  unfold validate_url validate_url_spec
  by_cases hu : url = ""
  · subst hu
    decide
  · by_cases hlen : strLen url < 4
    · simp [hlen]
    · rw [if_neg (by simp [hu, hlen]), if_neg hlen]
      cases hp : urlparse url with
      | error e => simp [Bind.bind, Except.bind, hp]
      | ok p =>
        simp only [Bind.bind, Except.bind, hp]
        unfold spec_rules
        dsimp only
        have e8 : ((strSplit (hostOf p.netloc) '.').all fun q => q != "") =
            !((strSplit (hostOf p.netloc) '.').any fun q => decide (strLen q = 0)) := by
          have hfun : (fun q : String => (q != "")) =
              (fun q : String => !decide (strLen q = 0)) := by
            funext q
            by_cases hq : q = ""
            · subst hq
              decide
            · have hnz : ¬ strLen q = 0 := fun h0 => hq ((strLen_eq_zero q).mp h0)
              simp [hq, hnz, bne_iff_ne]
          rw [hfun, List.all_eq_not_any_not]
          simp only [Bool.not_not]
        rw [e8, decide_and_bool]
        by_cases h2 : p.scheme = ""
        · simp [firstFailure, h2]
        · have hb2 : (p.scheme != "") = true := by simp [bne_iff_ne, h2]
          by_cases h3 : p.scheme = "http" ∨ p.scheme = "https"
          · have hb3 : (p.scheme == "http" || p.scheme == "https") = true := by
              rcases h3 with h | h <;> simp [h]
            by_cases h4 : p.netloc = ""
            · simp [firstFailure, h2, h3, hb2, hb3, h4]
            · have hb4 : (p.netloc != "") = true := by simp [bne_iff_ne, h4]
              by_cases hh : hostOf p.netloc = ""
              · simp [firstFailure, h2, h3, hb2, hb3, h4, hb4, hh]
              · cases hdot : strHasChar (hostOf p.netloc) '.' with
                | false => simp [firstFailure, h2, h3, hb2, hb3, h4, hb4, hh, hdot, bne_iff_ne]
                | true =>
                  cases h6 : (strStarts (hostOf p.netloc) "." || strEnds (hostOf p.netloc) "." ||
                      strContains (hostOf p.netloc) "..") with
                  | true =>
                    simp [firstFailure, h2, h3, hb2, hb3, h4, hb4, hh, hdot, h6, bne_iff_ne]
                  | false =>
                    cases h7 : (hostOf p.netloc).toList.all
                        (fun c => c.isAlphanum || c = '.' || c = '-') with
                    | false =>
                      simp [firstFailure, h2, h3, hb2, hb3, h4, hb4, hh, hdot, h6, h7, bne_iff_ne]
                    | true =>
                      cases h8 : (strSplit (hostOf p.netloc) '.').any
                          (fun q => decide (strLen q = 0)) with
                      | true =>
                        simp [firstFailure, h2, h3, hb2, hb3, h4, hb4, hh, hdot, h6, h7, h8,
                          bne_iff_ne]
                      | false =>
                        simp [firstFailure, h2, h3, hb2, hb3, h4, hb4, hh, hdot, h6, h7, h8,
                          bne_iff_ne]
                        by_cases h9 :
                            2 ≤ strLen ((strSplit (hostOf p.netloc) '.').getLast?.getD "") ∧
                            ∀ x ∈ ((strSplit (hostOf p.netloc) '.').getLast?.getD "").data,
                              x.isAlpha = true
                        · have hcond :
                              ¬ (2 ≤ strLen ((strSplit (hostOf p.netloc) '.').getLast?.getD "") →
                                ∃ x ∈ ((strSplit (hostOf p.netloc) '.').getLast?.getD "").data,
                                  x.isAlpha = false) := by
                            intro himp
                            obtain ⟨x, hx, hxf⟩ := himp h9.1
                            have hxt := h9.2 x hx
                            rw [hxt] at hxf
                            cases hxf
                          rw [if_neg hcond, if_pos h9]
                        · have hcond :
                              2 ≤ strLen ((strSplit (hostOf p.netloc) '.').getLast?.getD "") →
                                ∃ x ∈ ((strSplit (hostOf p.netloc) '.').getLast?.getD "").data,
                                  x.isAlpha = false := by
                            intro hA
                            by_cases hall :
                                ∀ x ∈ ((strSplit (hostOf p.netloc) '.').getLast?.getD "").data,
                                  x.isAlpha = true
                            · exact absurd ⟨hA, hall⟩ h9
                            · push_neg at hall
                              obtain ⟨x, hx, hxf⟩ := hall
                              refine ⟨x, hx, ?_⟩
                              revert hxf
                              cases x.isAlpha <;> simp
                          rw [if_pos hcond, if_neg h9]
          · have h3a : ¬ p.scheme = "http" := fun hc => h3 (Or.inl hc)
            have h3b : ¬ p.scheme = "https" := fun hc => h3 (Or.inr hc)
            simp [firstFailure, h2, h3, h3a, h3b, hb2, beq_iff_eq]

/-- Witness for the amended C6 at a concrete candidate. -/
theorem validate_url_follows_spec_rules_witness :
    validate_url "http://good.example.com" =
      validate_url_spec "http://good.example.com" :=
  validate_url_follows_spec_rules "http://good.example.com"

end Phishing
